import Mathlib

/-!
Verification of the `minio` Django management command
(`src/minio_storage/management/commands/minio.py`) against its
natural-language specification.

The command is a thin dispatcher over an external object-storage client.
We embed it shallowly: the client is modelled as a structure of
deterministic response functions (each call either returns a value or
raises an exception, modelled by `Except MinioErr`), and each command
method is a pure Lean function that returns the outcome of the
invocation together with the trace of client calls, the stdout lines and
the stderr lines it produced.
-/

/-- The exception classes of the `minio.error` module that the command
distinguishes, plus `other` for every other exception raised by the
client library. -/
inductive MinioErrKind where
  | bucketAlreadyOwnedByYou
  | noSuchBucket
  | bucketNotEmpty
  | noSuchBucketPolicy
  | other
deriving DecidableEq, Repr

/-- An exception raised by the storage client: its class and its
`.message` attribute. -/
structure MinioErr where
  kind : MinioErrKind
  message : String
deriving DecidableEq, Repr

/-- A transient object entry produced by `list_objects_v2`
(`o.object_name`, `o.is_dir`). -/
structure ObjEntry where
  object_name : String
  is_dir : Bool
deriving DecidableEq, Repr

/-- A bucket entry produced by `list_buckets` (`o.name`). -/
structure MinioBucket where
  name : String
deriving DecidableEq, Repr

/-- One call made into the storage client, with its arguments. -/
inductive ClientCall where
  | bucketExists (bucket : String)
  | listBuckets
  | listObjects (bucket : String) (pfx : String) (recursive : Bool)
  | makeBucket (bucket : String)
  | removeBucket (bucket : String)
  | getBucketPolicy (bucket : String)
  | setBucketPolicy (bucket : String) (policyDoc : String)
deriving DecidableEq, Repr

/-- The bucket argument a client call carries, if any. -/
def ClientCall.bucketArg : ClientCall → Option String
  | .bucketExists b => some b
  | .listBuckets => none
  | .listObjects b _ _ => some b
  | .makeBucket b => some b
  | .removeBucket b => some b
  | .getBucketPolicy b => some b
  | .setBucketPolicy b _ => some b

/-- The external storage client, modelled as deterministic responses to
each method the command uses.  `Except.error e` models the call raising
exception `e`. -/
structure Client where
  bucketExistsResp : String → Except MinioErr Bool
  listBucketsResp : Except MinioErr (List MinioBucket)
  listObjectsResp : String → String → Bool → Except MinioErr (List ObjEntry)
  makeBucketResp : String → Except MinioErr Unit
  removeBucketResp : String → Except MinioErr Unit
  getBucketPolicyResp : String → Except MinioErr String
  setBucketPolicyResp : String → String → Except MinioErr Unit

/-- A resolved storage backend instance: it owns a client and a default
bucket name. -/
structure Storage where
  client : Client
  bucket_name : String

/-- How an invocation of the command ends. -/
inductive Outcome where
  /-- Normal return from `handle`; `policy_get` returns a string that the
  management framework prints, the other methods return `None`. -/
  | ok (ret : Option String)
  /-- A `CommandError` was raised: a human-readable fatal error with
  nonzero exit status. -/
  | commandError (msg : String)
  /-- An exception from the client propagated uncaught. -/
  | uncaught (e : MinioErr)
  /-- A Python-level error (e.g. `ValueError` from `json.loads` or from
  `Policy(...)`) propagated uncaught. -/
  | pyError (msg : String)
  /-- Argument parsing rejected the invocation before `handle` ran. -/
  | usageError (msg : String)
deriving DecidableEq, Repr

/-- The observable result of one invocation: the outcome, the trace of
client calls, the stdout lines and the stderr lines. -/
structure Run where
  outcome : Outcome
  calls : List ClientCall
  out : List String
  err : List String
deriving DecidableEq, Repr

/-- Method `Command.bucket_exists`: check the bucket exists, raise a
`CommandError` if not. -/
def bucket_exists (c : Client) (bucket_name : String) : Run :=
  match c.bucketExistsResp bucket_name with
  | .error e => { outcome := .uncaught e, calls := [.bucketExists bucket_name], out := [], err := [] }
  | .ok ex =>
    if ex then
      { outcome := .ok none, calls := [.bucketExists bucket_name], out := [], err := [] }
    else
      { outcome := .commandError ("bucket " ++ bucket_name ++ " does not exist"),
        calls := [.bucketExists bucket_name], out := [], err := [] }

/-- Method `Command.list_buckets`: print each bucket's name on its own stdout
line. -/
def list_buckets (c : Client) : Run :=
  match c.listBucketsResp with
  | .error e => { outcome := .uncaught e, calls := [.listBuckets], out := [], err := [] }
  | .ok objs =>
    { outcome := .ok none, calls := [.listBuckets],
      out := objs.map MinioBucket.name, err := [] }

/-- The printing loop of `Command.bucket_list`: returns
(`n_files`, `n_dirs`, stdout lines) for the enumerated objects. -/
def processObjs (list_dirs list_files : Bool) : List ObjEntry → Nat × Nat × List String
  | [] => (0, 0, [])
  | o :: rest =>
    let r := processObjs list_dirs list_files rest
    if o.is_dir then
      (r.1, r.2.1 + 1, (if list_dirs then [o.object_name] else []) ++ r.2.2)
    else
      (r.1 + 1, r.2.1, (if list_files then [o.object_name] else []) ++ r.2.2)

/-- Method `Command.bucket_list`: list objects under a prefix, print the
selected entries, then print a count summary to stderr; a `NoSuchBucket`
from the client becomes a `CommandError`. -/
def bucket_list (c : Client) (bucket_name : String) (pfx : String)
    (list_dirs list_files recursive summary : Bool) : Run :=
  match c.listObjectsResp bucket_name pfx recursive with
  | .error e =>
    if e.kind = .noSuchBucket then
      { outcome := .commandError ("bucket " ++ bucket_name ++ " does not exist"),
        calls := [.listObjects bucket_name pfx recursive], out := [], err := [] }
    else
      { outcome := .uncaught e, calls := [.listObjects bucket_name pfx recursive],
        out := [], err := [] }
  | .ok objs =>
    let r := processObjs list_dirs list_files objs
    { outcome := .ok none, calls := [.listObjects bucket_name pfx recursive],
      out := r.2.2,
      err := if summary then
          [toString r.1 ++ " files and " ++ toString r.2.1 ++ " directories"]
        else [] }

/-- Method `Command.bucket_create`: make the bucket, report success on stderr;
a `BucketAlreadyOwnedByYou` from the client becomes a `CommandError`. -/
def bucket_create (c : Client) (bucket_name : String) : Run :=
  match c.makeBucketResp bucket_name with
  | .ok _ =>
    { outcome := .ok none, calls := [.makeBucket bucket_name], out := [],
      err := ["created bucket: " ++ bucket_name] }
  | .error e =>
    if e.kind = .bucketAlreadyOwnedByYou then
      { outcome := .commandError ("you have already created " ++ bucket_name),
        calls := [.makeBucket bucket_name], out := [], err := [] }
    else
      { outcome := .uncaught e, calls := [.makeBucket bucket_name], out := [], err := [] }

/-- Method `Command.bucket_delete`: remove the bucket; `NoSuchBucket` and
`BucketNotEmpty` from the client become `CommandError`s. -/
def bucket_delete (c : Client) (bucket_name : String) : Run :=
  match c.removeBucketResp bucket_name with
  | .ok _ => { outcome := .ok none, calls := [.removeBucket bucket_name], out := [], err := [] }
  | .error e =>
    if e.kind = .noSuchBucket then
      { outcome := .commandError ("bucket " ++ bucket_name ++ " does not exist"),
        calls := [.removeBucket bucket_name], out := [], err := [] }
    else if e.kind = .bucketNotEmpty then
      { outcome := .commandError ("bucket " ++ bucket_name ++ " is not empty"),
        calls := [.removeBucket bucket_name], out := [], err := [] }
    else
      { outcome := .uncaught e, calls := [.removeBucket bucket_name], out := [], err := [] }

/-! ### JSON (model of the Python `json` standard library module)

`policy_get` pipes the policy document through `json.loads` and
`json.dumps(..., ensure_ascii=False, indent=2)`.  The `json` module is an
external collaborator of the command; we model the documents it handles
(null, booleans, integers, strings, arrays, objects) and its behaviour on
them: `json_loads` parses, `json_dumps` re-serializes with two-space
indentation, `", "`/`": "` separators, short escapes for control
characters, and non-ASCII characters emitted literally (`ensure_ascii=False`). -/

/-- A JSON document. -/
inductive Json where
  | jnull
  | jbool (b : Bool)
  | jnum (n : Int)
  | jstr (s : String)
  | jarr (xs : List Json)
  | jobj (fields : List (String × Json))
deriving Repr

/-- The lower-case hex digit for `n < 16`. -/
def hexDigit (n : Nat) : Char :=
  if n < 10 then Char.ofNat (48 + n) else Char.ofNat (87 + n)

/-- Serialize one character of a JSON string under `ensure_ascii=False`:
quote and backslash are escaped, control characters use the short
escapes or `\u00xx`, everything else (non-ASCII included) is literal. -/
def escChar (c : Char) : String :=
  if c = '"' then "\\\""
  else if c = '\\' then "\\\\"
  else if c = '\n' then "\\n"
  else if c = '\t' then "\\t"
  else if c = '\r' then "\\r"
  else if c = '\x08' then "\\b"
  else if c = '\x0c' then "\\f"
  else if c.toNat < 32 then
    "\\u00" ++ String.singleton (hexDigit (c.toNat / 16)) ++ String.singleton (hexDigit (c.toNat % 16))
  else String.singleton c

/-- Serialize a JSON string with its quotes. -/
def jescape (s : String) : String :=
  "\"" ++ String.join (s.data.map escChar) ++ "\""

/-- The `indent=2` indentation at nesting level `n`. -/
def indentStr (n : Nat) : String :=
  String.join (List.replicate n "  ")

mutual
/-- Serialization `json.dumps(..., ensure_ascii=False, indent=2)` at nesting level `lvl`. -/
def dumpsAt : Nat → Json → String
  | _, .jnull => "null"
  | _, .jbool b => if b then "true" else "false"
  | _, .jnum n => toString n
  | _, .jstr s => jescape s
  | _, .jarr [] => "[]"
  | lvl, .jarr (x :: xs) =>
    "[\n" ++ dumpsItems (lvl + 1) x xs ++ "\n" ++ indentStr lvl ++ "]"
  | _, .jobj [] => "\x7b\x7d"
  | lvl, .jobj (f :: fs) =>
    "\x7b\n" ++ dumpsFields (lvl + 1) f fs ++ "\n" ++ indentStr lvl ++ "\x7d"
termination_by lvl j => sizeOf j

/-- The comma-and-newline separated items of a non-empty array. -/
def dumpsItems : Nat → Json → List Json → String
  | lvl, x, [] => indentStr lvl ++ dumpsAt lvl x
  | lvl, x, y :: ys => indentStr lvl ++ dumpsAt lvl x ++ ",\n" ++ dumpsItems lvl y ys
termination_by lvl x xs => sizeOf x + sizeOf xs

/-- The comma-and-newline separated members of a non-empty object. -/
def dumpsFields : Nat → String × Json → List (String × Json) → String
  | lvl, (k, v), [] => indentStr lvl ++ jescape k ++ ": " ++ dumpsAt lvl v
  | lvl, (k, v), g :: gs =>
    indentStr lvl ++ jescape k ++ ": " ++ dumpsAt lvl v ++ ",\n" ++ dumpsFields lvl g gs
termination_by lvl f fs => sizeOf f + sizeOf fs
end

/-- Model of `json.dumps(d, ensure_ascii=False, indent=2)`. -/
def json_dumps (d : Json) : String := dumpsAt 0 d

/-- Drop leading JSON whitespace. -/
def skipWs : List Char → List Char
  | [] => []
  | c :: rest => if c = ' ' || c = '\t' || c = '\n' || c = '\r' then skipWs rest else c :: rest

/-- Split off a maximal run of decimal digits. -/
def takeDigits : List Char → List Char × List Char
  | [] => ([], [])
  | c :: rest =>
    if c.isDigit then
      let r := takeDigits rest
      (c :: r.1, r.2)
    else ([], c :: rest)

/-- The value of a digit run. -/
def digitsVal (ds : List Char) : Nat :=
  ds.foldl (fun a c => a * 10 + (c.toNat - 48)) 0

/-- Parse a JSON integer literal. -/
def parseNum : List Char → Option (Json × List Char)
  | '-' :: rest =>
    let r := takeDigits rest
    if r.1 = [] then none else some (.jnum (-(digitsVal r.1 : Int)), r.2)
  | cs =>
    let r := takeDigits cs
    if r.1 = [] then none else some (.jnum (digitsVal r.1 : Int), r.2)

/-- The value of a hex digit, if it is one. -/
def hexVal (c : Char) : Option Nat :=
  if c.isDigit then some (c.toNat - 48)
  else if 'a' ≤ c && c ≤ 'f' then some (c.toNat - 87)
  else if 'A' ≤ c && c ≤ 'F' then some (c.toNat - 55)
  else none

/-- Parse the body of a JSON string after its opening quote, handling
escape sequences; fuelled to keep recursion structural. -/
def parseStrBody : Nat → List Char → Option (String × List Char)
  | 0, _ => none
  | _ + 1, [] => none
  | _ + 1, '"' :: rest => some ("", rest)
  | fuel + 1, '\\' :: rest =>
    match rest with
    | [] => none
    | e :: rest2 =>
      let esc : Option (String × List Char) :=
        if e = '"' then some ("\"", rest2)
        else if e = '\\' then some ("\\", rest2)
        else if e = '/' then some ("/", rest2)
        else if e = 'n' then some ("\n", rest2)
        else if e = 't' then some ("\t", rest2)
        else if e = 'r' then some ("\r", rest2)
        else if e = 'b' then some ("\x08", rest2)
        else if e = 'f' then some ("\x0c", rest2)
        else if e = 'u' then
          match rest2 with
          | a :: b :: c :: d :: rest3 =>
            match hexVal a, hexVal b, hexVal c, hexVal d with
            | some x1, some x2, some x3, some x4 =>
              some (String.singleton (Char.ofNat (((x1 * 16 + x2) * 16 + x3) * 16 + x4)), rest3)
            | _, _, _, _ => none
          | _ => none
        else none
      match esc with
      | none => none
      | some (s, restN) =>
        match parseStrBody fuel restN with
        | none => none
        | some (tail, restF) => some (s ++ tail, restF)
  | fuel + 1, c :: rest =>
    match parseStrBody fuel rest with
    | none => none
    | some (tail, restF) => some (String.singleton c ++ tail, restF)

mutual
/-- Parse one JSON value (fuelled recursive-descent model of `json.loads`). -/
def parseVal : Nat → List Char → Option (Json × List Char)
  | 0, _ => none
  | fuel + 1, cs =>
    match skipWs cs with
    | 'n' :: 'u' :: 'l' :: 'l' :: rest => some (.jnull, rest)
    | 't' :: 'r' :: 'u' :: 'e' :: rest => some (.jbool true, rest)
    | 'f' :: 'a' :: 'l' :: 's' :: 'e' :: rest => some (.jbool false, rest)
    | '"' :: rest => (parseStrBody (fuel + 1) rest).map (fun r => (.jstr r.1, r.2))
    | '[' :: rest =>
      (match skipWs rest with
       | ']' :: rest2 => some (.jarr [], rest2)
       | cs2 => parseItems fuel cs2 [])
    | '\x7b' :: rest =>
      (match skipWs rest with
       | '\x7d' :: rest2 => some (.jobj [], rest2)
       | cs2 => parseMembers fuel cs2 [])
    | cs2 => parseNum cs2

/-- Parse the remaining items of a non-empty array. -/
def parseItems : Nat → List Char → List Json → Option (Json × List Char)
  | 0, _, _ => none
  | fuel + 1, cs, acc =>
    match parseVal fuel cs with
    | none => none
    | some (v, rest) =>
      match skipWs rest with
      | ',' :: rest2 => parseItems fuel rest2 (acc ++ [v])
      | ']' :: rest2 => some (.jarr (acc ++ [v]), rest2)
      | _ => none

/-- Parse the remaining members of a non-empty object. -/
def parseMembers : Nat → List Char → List (String × Json) → Option (Json × List Char)
  | 0, _, _ => none
  | fuel + 1, cs, acc =>
    match skipWs cs with
    | '"' :: rest =>
      (match parseStrBody (fuel + 1) rest with
       | none => none
       | some (k, rest2) =>
         match skipWs rest2 with
         | ':' :: rest3 =>
           (match parseVal fuel rest3 with
            | none => none
            | some (v, rest4) =>
              match skipWs rest4 with
              | ',' :: rest5 => parseMembers fuel rest5 (acc ++ [(k, v)])
              | '\x7d' :: rest5 => some (.jobj (acc ++ [(k, v)]), rest5)
              | _ => none)
         | _ => none)
    | _ => none
end

/-- Model of `json.loads`: parse a complete document (allowing surrounding
whitespace), failing on trailing garbage. -/
def json_loads (s : String) : Option Json :=
  match parseVal (4 * s.length + 16) s.data with
  | none => none
  | some (d, rest) => if skipWs rest = [] then some d else none

/-! ### Policy and the policy subcommands -/

/-- Modelled from the spec: the repository's `minio_storage.policy.Policy`
enum is not under `src/`; the spec describes it only as "a small
enumerated policy value (one of a fixed set of named access-policy
levels)" without enumerating the members, so a member is represented by
its string value and the member-value set is a parameter (`members`) of
the invocation model. -/
structure Policy where
  value : String
deriving DecidableEq, Repr

/-- Modelled from the spec: `Policy.bucket` of the missing policy module
produces the policy document that is applied to a bucket; the spec does
not specify its text, so it is modelled as an injective pairing of the
policy value and the bucket name. -/
def Policy.bucket (p : Policy) (bucket_name : String) : String :=
  p.value ++ " applied to " ++ bucket_name

/-- Method `Command.policy_get`: fetch the policy document, parse it as JSON and
return it re-serialized with `ensure_ascii=False, indent=2`; `NoSuchBucket`
and `NoSuchBucketPolicy` from the client become `CommandError`s carrying
the exception's own message. -/
def policy_get (c : Client) (bucket_name : String) : Run :=
  match c.getBucketPolicyResp bucket_name with
  | .error e =>
    if e.kind = .noSuchBucket || e.kind = .noSuchBucketPolicy then
      { outcome := .commandError e.message, calls := [.getBucketPolicy bucket_name],
        out := [], err := [] }
    else
      { outcome := .uncaught e, calls := [.getBucketPolicy bucket_name], out := [], err := [] }
  | .ok s =>
    match json_loads s with
    | none =>
      { outcome := .pyError "json.loads: invalid JSON document",
        calls := [.getBucketPolicy bucket_name], out := [], err := [] }
    | some d =>
      { outcome := .ok (some (json_dumps d)), calls := [.getBucketPolicy bucket_name],
        out := [], err := [] }

/-- Method `Command.policy_set`: apply the policy document for `p` to the bucket
via the client (`Policy(policy)` on an enum member is the member itself);
`NoSuchBucket` becomes a `CommandError` carrying the exception's
message. -/
def policy_set (c : Client) (bucket_name : String) (p : Policy) : Run :=
  let doc := p.bucket bucket_name
  match c.setBucketPolicyResp bucket_name doc with
  | .ok _ =>
    { outcome := .ok none, calls := [.setBucketPolicy bucket_name doc], out := [], err := [] }
  | .error e =>
    if e.kind = .noSuchBucket then
      { outcome := .commandError e.message, calls := [.setBucketPolicy bucket_name doc],
        out := [], err := [] }
    else
      { outcome := .uncaught e, calls := [.setBucketPolicy bucket_name doc],
        out := [], err := [] }

/-! ### Backend resolution and dispatch -/

/-- An importable storage class: whether it is a subclass of
`MinioStorage`, and the instance `storage_class()` constructs (with
`_init_check` patched out, so construction makes no client calls). -/
structure StorageClass where
  subclassOfMinioStorage : Bool
  construct : Storage

/-- The Python import environment: what `import_string` finds under each
dotted path. -/
abbrev ImportEnv : Type := String → Option StorageClass

/-- The alias table of `Command.storage`: `media` and `static` map to the
built-in storage class paths, any other value is used as the dotted path
itself. -/
def resolveClassName (cls : String) : String :=
  if cls = "media" then "minio_storage.storage.MinioMediaStorage"
  else if cls = "static" then "minio_storage.storage.MinioStaticStorage"
  else cls

/-- Method `Command.storage`: resolve the `--class` option to a storage
instance, failing with a `CommandError` when the import fails or the
class is not a `MinioStorage` subclass. -/
def storageResolve (env : ImportEnv) (cls : String) : Except String Storage :=
  let class_name := resolveClassName cls
  match env class_name with
  | none => .error ("could not find storage class: " ++ class_name)
  | some sc =>
    if sc.subclassOfMinioStorage then .ok sc.construct
    else .error (class_name ++ " is not an sub class of MinioStorage.")

/-- The parsed command-line options (the argparse namespace).  Flags of a
subparser are defaulted for the other subcommands; `command = none`
models no subcommand given. -/
structure Options where
  className : String
  bucket : Option String
  command : Option String
  dirs : Bool
  files : Bool
  recursive : Bool
  pfx : String
  buckets : Bool
  set : Option String

/-- The bucket-name selection of `Command.handle`:
`options["bucket"] or storage.bucket_name` (Python `or` falls back on
`None` and on the empty string alike). -/
def effectiveBucket (optBucket : Option String) (storage_bucket : String) : String :=
  match optBucket with
  | none => storage_bucket
  | some b => if b = "" then storage_bucket else b

/-- Method `Command.handle`: resolve the storage backend, select the bucket
name, then dispatch on the subcommand; with no subcommand, check bucket
existence.  `members` is the value set of the `Policy` enum: `Policy(v)`
for `v` outside it raises a `ValueError`. -/
def handleRun (members : List String) (env : ImportEnv) (opts : Options) : Run :=
  match storageResolve env opts.className with
  | .error msg => { outcome := .commandError msg, calls := [], out := [], err := [] }
  | .ok storage =>
    let bucket_name := effectiveBucket opts.bucket storage.bucket_name
    let command := opts.command.getD ""
    if command = "mb" then bucket_create storage.client bucket_name
    else if command = "rb" then bucket_delete storage.client bucket_name
    else if command = "ls" then
      if opts.buckets then list_buckets storage.client
      else
        let list_dirs := if opts.dirs || opts.files then opts.dirs else true
        let list_files := if opts.dirs || opts.files then opts.files else true
        bucket_list storage.client bucket_name opts.pfx list_dirs list_files opts.recursive true
    else if command = "policy" then
      match opts.set with
      | some v =>
        if members.contains v then policy_set storage.client bucket_name ⟨v⟩
        else
          { outcome := .pyError ("ValueError: " ++ v ++ " is not a valid Policy"),
            calls := [], out := [], err := [] }
      | none => policy_get storage.client bucket_name
    else bucket_exists storage.client bucket_name

/-- The argparse validation relevant to the claims: the subcommand must
be one of the registered subparsers (or absent), and `--set` exists only
under `policy` and its value must be one of the `Policy` enum values
(`choices=[p.value for p in Policy]`). -/
def validOptions (members : List String) (opts : Options) : Bool :=
  (match opts.command with
   | none => true
   | some c => c == "mb" || c == "rb" || c == "ls" || c == "policy") &&
  (match opts.command, opts.set with
   | some "policy", some v => members.contains v
   | some "policy", none => true
   | _, some _ => false
   | _, none => true)

/-- One full invocation of the management command: argparse validation,
then `handle`.  A rejected invocation exits with a usage error before
`handle` (and hence before backend resolution or any client call). -/
def invoke (members : List String) (env : ImportEnv) (opts : Options) : Run :=
  if validOptions members opts then handleRun members env opts
  else { outcome := .usageError "argparse: invalid arguments", calls := [], out := [], err := [] }

/-! ### Helper lemmas: call traces and dispatch -/

lemma bucket_exists_calls (c : Client) (b : String) :
    (bucket_exists c b).calls = [.bucketExists b] := by
  unfold bucket_exists
  rcases c.bucketExistsResp b with e | ex
  · rfl
  · by_cases h : ex <;> simp [h]

lemma bucket_create_calls (c : Client) (b : String) :
    (bucket_create c b).calls = [.makeBucket b] := by
  unfold bucket_create
  rcases c.makeBucketResp b with e | v
  · by_cases h : e.kind = MinioErrKind.bucketAlreadyOwnedByYou <;> simp [h]
  · rfl

lemma bucket_delete_calls (c : Client) (b : String) :
    (bucket_delete c b).calls = [.removeBucket b] := by
  unfold bucket_delete
  rcases c.removeBucketResp b with e | v
  · by_cases h1 : e.kind = MinioErrKind.noSuchBucket
    · simp [h1]
    · by_cases h2 : e.kind = MinioErrKind.bucketNotEmpty <;> simp [h1, h2]
  · rfl

lemma list_buckets_calls (c : Client) :
    (list_buckets c).calls = [.listBuckets] := by
  unfold list_buckets
  rcases c.listBucketsResp with e | objs <;> rfl

lemma bucket_list_calls (c : Client) (b pfx : String) (ld lf rec summ : Bool) :
    (bucket_list c b pfx ld lf rec summ).calls = [.listObjects b pfx rec] := by
  unfold bucket_list
  rcases c.listObjectsResp b pfx rec with e | objs
  · by_cases h : e.kind = MinioErrKind.noSuchBucket <;> simp [h]
  · rfl

lemma policy_get_calls (c : Client) (b : String) :
    (policy_get c b).calls = [.getBucketPolicy b] := by
  unfold policy_get
  rcases h : c.getBucketPolicyResp b with e | s
  · by_cases hk : (e.kind = MinioErrKind.noSuchBucket || e.kind = MinioErrKind.noSuchBucketPolicy) = true <;>
      simp [h, hk]
  · simp only [h]
    rcases hp : json_loads s with _ | d <;> simp [hp]

lemma policy_set_calls (c : Client) (b : String) (p : Policy) :
    (policy_set c b p).calls = [.setBucketPolicy b (p.bucket b)] := by
  unfold policy_set
  rcases h : c.setBucketPolicyResp b (p.bucket b) with e | v
  · by_cases hk : e.kind = MinioErrKind.noSuchBucket <;> simp [h, hk]
  · simp [h]

lemma invoke_eq_handleRun (members : List String) (env : ImportEnv) (opts : Options)
    (h : validOptions members opts = true) :
    invoke members env opts = handleRun members env opts := by
  simp [invoke, h]

lemma handleRun_default (members : List String) (env : ImportEnv) (opts : Options)
    (storage : Storage) (hres : storageResolve env opts.className = .ok storage)
    (hcmd : opts.command = none) :
    handleRun members env opts =
      bucket_exists storage.client (effectiveBucket opts.bucket storage.bucket_name) := by
  simp [handleRun, hres, hcmd, Option.getD]

lemma handleRun_mb (members : List String) (env : ImportEnv) (opts : Options)
    (storage : Storage) (hres : storageResolve env opts.className = .ok storage)
    (hcmd : opts.command = some "mb") :
    handleRun members env opts =
      bucket_create storage.client (effectiveBucket opts.bucket storage.bucket_name) := by
  simp [handleRun, hres, hcmd, Option.getD]

lemma handleRun_rb (members : List String) (env : ImportEnv) (opts : Options)
    (storage : Storage) (hres : storageResolve env opts.className = .ok storage)
    (hcmd : opts.command = some "rb") :
    handleRun members env opts =
      bucket_delete storage.client (effectiveBucket opts.bucket storage.bucket_name) := by
  simp [handleRun, hres, hcmd, Option.getD]

lemma handleRun_ls_buckets (members : List String) (env : ImportEnv) (opts : Options)
    (storage : Storage) (hres : storageResolve env opts.className = .ok storage)
    (hcmd : opts.command = some "ls") (hb : opts.buckets = true) :
    handleRun members env opts = list_buckets storage.client := by
  simp [handleRun, hres, hcmd, hb, Option.getD]

lemma handleRun_ls_objects (members : List String) (env : ImportEnv) (opts : Options)
    (storage : Storage) (hres : storageResolve env opts.className = .ok storage)
    (hcmd : opts.command = some "ls") (hb : opts.buckets = false) :
    handleRun members env opts =
      bucket_list storage.client (effectiveBucket opts.bucket storage.bucket_name) opts.pfx
        (if opts.dirs || opts.files then opts.dirs else true)
        (if opts.dirs || opts.files then opts.files else true)
        opts.recursive true := by
  simp [handleRun, hres, hcmd, hb, Option.getD]

lemma handleRun_policy_none (members : List String) (env : ImportEnv) (opts : Options)
    (storage : Storage) (hres : storageResolve env opts.className = .ok storage)
    (hcmd : opts.command = some "policy") (hset : opts.set = none) :
    handleRun members env opts =
      policy_get storage.client (effectiveBucket opts.bucket storage.bucket_name) := by
  simp [handleRun, hres, hcmd, hset, Option.getD]

lemma handleRun_policy_some (members : List String) (env : ImportEnv) (opts : Options)
    (storage : Storage) (v : String)
    (hres : storageResolve env opts.className = .ok storage)
    (hcmd : opts.command = some "policy") (hset : opts.set = some v)
    (hv : v ∈ members) :
    handleRun members env opts =
      policy_set storage.client (effectiveBucket opts.bucket storage.bucket_name) ⟨v⟩ := by
  simp [handleRun, hres, hcmd, hset, hv, Option.getD]

/-! ### processObjs: counts and printed lines -/

lemma processObjs_out (ld lf : Bool) (objs : List ObjEntry) :
    (processObjs ld lf objs).2.2 =
      (objs.filter (fun o => (o.is_dir && ld) || (!o.is_dir && lf))).map ObjEntry.object_name := by
  induction objs with
  | nil => rfl
  | cons o rest ih =>
    rcases hd : o.is_dir
    · cases lf <;> simp [processObjs, hd, ih, List.filter_cons]
    · cases ld <;> simp [processObjs, hd, ih, List.filter_cons]

lemma processObjs_files (ld lf : Bool) (objs : List ObjEntry) :
    (processObjs ld lf objs).1 = objs.countP (fun o => !o.is_dir) := by
  induction objs with
  | nil => rfl
  | cons o rest ih =>
    rcases hd : o.is_dir <;> simp [processObjs, hd, ih, List.countP_cons]

lemma processObjs_dirs (ld lf : Bool) (objs : List ObjEntry) :
    (processObjs ld lf objs).2.1 = objs.countP (fun o => o.is_dir) := by
  induction objs with
  | nil => rfl
  | cons o rest ih =>
    rcases hd : o.is_dir <;> simp [processObjs, hd, ih, List.countP_cons]

/-! ### Concrete fixtures used by the witnesses -/

/-- A client whose every call succeeds trivially. -/
def okClient : Client where
  bucketExistsResp := fun _ => .ok true
  listBucketsResp := .ok []
  listObjectsResp := fun _ _ _ => .ok []
  makeBucketResp := fun _ => .ok ()
  removeBucketResp := fun _ => .ok ()
  getBucketPolicyResp := fun _ => .ok "\x7b\x7d"
  setBucketPolicyResp := fun _ _ => .ok ()

/-- A client for which the target bucket does not exist. -/
def missingClient : Client := { okClient with bucketExistsResp := fun _ => .ok false }

/-- An import environment exposing one `MinioStorage` subclass at the
default media path, constructing the given storage instance. -/
def envFor (s : Storage) : ImportEnv := fun n =>
  if n = "minio_storage.storage.MinioMediaStorage" then
    some { subclassOfMinioStorage := true, construct := s }
  else none

/-- Options as parsed with no subcommand and all defaults. -/
def baseOpts : Options where
  className := "media"
  bucket := none
  command := none
  dirs := false
  files := false
  recursive := false
  pfx := ""
  buckets := false
  set := none

/-! ### The claims -/

/-- C4: with no subcommand given, the command checks the target bucket
via the client; if the client reports it missing, the invocation fails
with a "does not exist" `CommandError`; if it exists, the invocation
exits 0 with no output at all. -/
theorem default_checks_bucket_exists
    (members : List String) (env : ImportEnv) (opts : Options) (storage : Storage) (b : String)
    (hres : storageResolve env opts.className = .ok storage)
    (hcmd : opts.command = none) (hset : opts.set = none)
    (hb : b = effectiveBucket opts.bucket storage.bucket_name) :
    (storage.client.bucketExistsResp b = .ok false →
      invoke members env opts =
        { outcome := .commandError ("bucket " ++ b ++ " does not exist"),
          calls := [.bucketExists b], out := [], err := [] }) ∧
    (storage.client.bucketExistsResp b = .ok true →
      invoke members env opts =
        { outcome := .ok none, calls := [.bucketExists b], out := [], err := [] }) := by
  have hval : validOptions members opts = true := by simp [validOptions, hcmd, hset]
  rw [invoke_eq_handleRun _ _ _ hval, handleRun_default members env opts storage hres hcmd, ← hb]
  constructor
  · intro h; simp [bucket_exists, h]
  · intro h; simp [bucket_exists, h]

/-- Witness for C4 at a concrete backend: missing bucket fails with the
"does not exist" error, existing bucket exits 0 silently. -/
theorem default_checks_bucket_exists_witness :
    invoke [] (envFor ⟨missingClient, "mybucket"⟩) baseOpts =
      { outcome := .commandError "bucket mybucket does not exist",
        calls := [.bucketExists "mybucket"], out := [], err := [] } ∧
    invoke [] (envFor ⟨okClient, "mybucket"⟩) baseOpts =
      { outcome := .ok none, calls := [.bucketExists "mybucket"], out := [], err := [] } := by
  constructor
  · exact (default_checks_bucket_exists [] (envFor ⟨missingClient, "mybucket"⟩) baseOpts
      ⟨missingClient, "mybucket"⟩ "mybucket" rfl rfl rfl rfl).1 rfl
  · exact (default_checks_bucket_exists [] (envFor ⟨okClient, "mybucket"⟩) baseOpts
      ⟨okClient, "mybucket"⟩ "mybucket" rfl rfl rfl rfl).2 rfl

/-- C5: `rb` maps the client's bucket-not-empty condition to a
"not empty" `CommandError`, and succeeds (exit 0) when the client's
remove call succeeds. -/
theorem rb_not_empty_or_success
    (members : List String) (env : ImportEnv) (opts : Options) (storage : Storage) (b : String)
    (hres : storageResolve env opts.className = .ok storage)
    (hcmd : opts.command = some "rb") (hset : opts.set = none)
    (hb : b = effectiveBucket opts.bucket storage.bucket_name) :
    (∀ e : MinioErr, storage.client.removeBucketResp b = .error e →
      e.kind = .bucketNotEmpty →
      invoke members env opts =
        { outcome := .commandError ("bucket " ++ b ++ " is not empty"),
          calls := [.removeBucket b], out := [], err := [] }) ∧
    (∀ u : Unit, storage.client.removeBucketResp b = .ok u →
      invoke members env opts =
        { outcome := .ok none, calls := [.removeBucket b], out := [], err := [] }) := by
  have hval : validOptions members opts = true := by simp [validOptions, hcmd, hset]
  rw [invoke_eq_handleRun _ _ _ hval, handleRun_rb members env opts storage hres hcmd, ← hb]
  constructor
  · intro e he hk
    simp [bucket_delete, he, hk]
  · intro u hu
    simp [bucket_delete, hu]

/-- Witness for C5 at a concrete backend: a non-empty bucket fails with
the "not empty" error, an empty one is removed with exit 0. -/
theorem rb_not_empty_or_success_witness :
    invoke []
        (envFor ⟨{ okClient with removeBucketResp := fun _ => .error ⟨.bucketNotEmpty, "full"⟩ }, "mybucket"⟩)
        { baseOpts with command := some "rb" } =
      { outcome := .commandError "bucket mybucket is not empty",
        calls := [.removeBucket "mybucket"], out := [], err := [] } ∧
    invoke [] (envFor ⟨okClient, "mybucket"⟩) { baseOpts with command := some "rb" } =
      { outcome := .ok none, calls := [.removeBucket "mybucket"], out := [], err := [] } := by
  constructor
  · exact (rb_not_empty_or_success []
      (envFor ⟨{ okClient with removeBucketResp := fun _ => .error ⟨.bucketNotEmpty, "full"⟩ }, "mybucket"⟩)
      { baseOpts with command := some "rb" }
      ⟨{ okClient with removeBucketResp := fun _ => .error ⟨.bucketNotEmpty, "full"⟩ }, "mybucket"⟩
      "mybucket" rfl rfl rfl rfl).1 ⟨.bucketNotEmpty, "full"⟩ rfl rfl
  · exact (rb_not_empty_or_success [] (envFor ⟨okClient, "mybucket"⟩)
      { baseOpts with command := some "rb" }
      ⟨okClient, "mybucket"⟩ "mybucket" rfl rfl rfl rfl).2 () rfl

/-- C6: `ls --buckets` prints exactly the names returned by the client's
list-buckets call, one per line, with no object listing performed; with
zero buckets nothing is printed. -/
theorem ls_buckets_prints_names
    (members : List String) (env : ImportEnv) (opts : Options) (storage : Storage)
    (bs : List MinioBucket)
    (hres : storageResolve env opts.className = .ok storage)
    (hcmd : opts.command = some "ls") (hbk : opts.buckets = true) (hset : opts.set = none)
    (hresp : storage.client.listBucketsResp = .ok bs) :
    invoke members env opts =
      { outcome := .ok none, calls := [.listBuckets],
        out := bs.map MinioBucket.name, err := [] } := by
  have hval : validOptions members opts = true := by simp [validOptions, hcmd, hset]
  rw [invoke_eq_handleRun _ _ _ hval, handleRun_ls_buckets members env opts storage hres hcmd hbk]
  simp [list_buckets, hresp]

/-- Witness for C6: a backend with zero buckets and one with two named
buckets. -/
theorem ls_buckets_prints_names_witness :
    invoke [] (envFor ⟨okClient, "mybucket"⟩)
        { baseOpts with command := some "ls", buckets := true } =
      { outcome := .ok none, calls := [.listBuckets], out := [], err := [] } ∧
    invoke [] (envFor ⟨{ okClient with listBucketsResp := .ok [⟨"alpha"⟩, ⟨"beta"⟩] }, "mybucket"⟩)
        { baseOpts with command := some "ls", buckets := true } =
      { outcome := .ok none, calls := [.listBuckets], out := ["alpha", "beta"], err := [] } := by
  constructor
  · exact ls_buckets_prints_names [] (envFor ⟨okClient, "mybucket"⟩)
      { baseOpts with command := some "ls", buckets := true }
      ⟨okClient, "mybucket"⟩ [] rfl rfl rfl rfl rfl
  · exact ls_buckets_prints_names []
      (envFor ⟨{ okClient with listBucketsResp := .ok [⟨"alpha"⟩, ⟨"beta"⟩] }, "mybucket"⟩)
      { baseOpts with command := some "ls", buckets := true }
      ⟨{ okClient with listBucketsResp := .ok [⟨"alpha"⟩, ⟨"beta"⟩] }, "mybucket"⟩
      [⟨"alpha"⟩, ⟨"beta"⟩] rfl rfl rfl rfl rfl

/-- C7: `ls` without `--buckets` prints an enumerated object iff it is a
directory and directories are selected or a file and files are selected,
where the selection is the `--dirs`/`--files` flags when at least one is
passed and both otherwise. -/
theorem ls_objects_selection
    (members : List String) (env : ImportEnv) (opts : Options) (storage : Storage)
    (b : String) (objs : List ObjEntry)
    (hres : storageResolve env opts.className = .ok storage)
    (hcmd : opts.command = some "ls") (hbk : opts.buckets = false) (hset : opts.set = none)
    (hb : b = effectiveBucket opts.bucket storage.bucket_name)
    (hresp : storage.client.listObjectsResp b opts.pfx opts.recursive = .ok objs) :
    (invoke members env opts).out =
      (objs.filter (fun o =>
        (o.is_dir && (if opts.dirs || opts.files then opts.dirs else true)) ||
        (!o.is_dir && (if opts.dirs || opts.files then opts.files else true)))).map
        ObjEntry.object_name := by
  have hval : validOptions members opts = true := by simp [validOptions, hcmd, hset]
  rw [invoke_eq_handleRun _ _ _ hval,
    handleRun_ls_objects members env opts storage hres hcmd hbk, ← hb]
  unfold bucket_list
  rw [hresp]
  simpa using processObjs_out _ _ objs

/-- Witness for C7: three objects (one directory, two files) listed with
`--dirs` only: just the directory is printed. -/
theorem ls_objects_selection_witness :
    (invoke []
        (envFor ⟨{ okClient with
          listObjectsResp := fun _ _ _ => .ok [⟨"d1/", true⟩, ⟨"f1", false⟩, ⟨"f2", false⟩] },
          "mybucket"⟩)
        { baseOpts with command := some "ls", dirs := true }).out = ["d1/"] := by
  have h := ls_objects_selection []
    (envFor ⟨{ okClient with
      listObjectsResp := fun _ _ _ => .ok [⟨"d1/", true⟩, ⟨"f1", false⟩, ⟨"f2", false⟩] },
      "mybucket"⟩)
    { baseOpts with command := some "ls", dirs := true }
    ⟨{ okClient with
      listObjectsResp := fun _ _ _ => .ok [⟨"d1/", true⟩, ⟨"f1", false⟩, ⟨"f2", false⟩] },
      "mybucket"⟩
    "mybucket" [⟨"d1/", true⟩, ⟨"f1", false⟩, ⟨"f2", false⟩] rfl rfl rfl rfl rfl rfl
  simpa using h

/-- C8: after a successful object listing, a count summary is printed to
stderr whose counts are the total numbers of directory and file entries
enumerated, independent of the `--dirs`/`--files` printing selection;
the options surface offers no flag that suppresses it (the theorem holds
for every parsed `Options` value running an object listing). -/
theorem ls_summary_counts
    (members : List String) (env : ImportEnv) (opts : Options) (storage : Storage)
    (b : String) (objs : List ObjEntry)
    (hres : storageResolve env opts.className = .ok storage)
    (hcmd : opts.command = some "ls") (hbk : opts.buckets = false) (hset : opts.set = none)
    (hb : b = effectiveBucket opts.bucket storage.bucket_name)
    (hresp : storage.client.listObjectsResp b opts.pfx opts.recursive = .ok objs) :
    (invoke members env opts).err =
      [toString (objs.countP (fun o => !o.is_dir)) ++ " files and " ++
        toString (objs.countP (fun o => o.is_dir)) ++ " directories"] := by
  have hval : validOptions members opts = true := by simp [validOptions, hcmd, hset]
  rw [invoke_eq_handleRun _ _ _ hval,
    handleRun_ls_objects members env opts storage hres hcmd hbk, ← hb]
  unfold bucket_list
  rw [hresp]
  simp [processObjs_files, processObjs_dirs]

/-- Witness for C8: with `--dirs` only (files suppressed from stdout),
the stderr summary still counts the two files and one directory. -/
theorem ls_summary_counts_witness :
    (invoke []
        (envFor ⟨{ okClient with
          listObjectsResp := fun _ _ _ => .ok [⟨"d1/", true⟩, ⟨"f1", false⟩, ⟨"f2", false⟩] },
          "mybucket"⟩)
        { baseOpts with command := some "ls", dirs := true }).err =
      ["2 files and 1 directories"] := by
  have h := ls_summary_counts []
    (envFor ⟨{ okClient with
      listObjectsResp := fun _ _ _ => .ok [⟨"d1/", true⟩, ⟨"f1", false⟩, ⟨"f2", false⟩] },
      "mybucket"⟩)
    { baseOpts with command := some "ls", dirs := true }
    ⟨{ okClient with
      listObjectsResp := fun _ _ _ => .ok [⟨"d1/", true⟩, ⟨"f1", false⟩, ⟨"f2", false⟩] },
      "mybucket"⟩
    "mybucket" [⟨"d1/", true⟩, ⟨"f1", false⟩, ⟨"f2", false⟩] rfl rfl rfl rfl rfl rfl
  simpa using h

/-- C1: the four client error conditions are each mapped to their own
`CommandError`: `BucketAlreadyOwnedByYou` during `mb`, `NoSuchBucket`
during `rb`/`ls`/`policy get`/`policy set`, `BucketNotEmpty` during
`rb`, and `NoSuchBucketPolicy` during `policy get`; every other
exception from the client propagates uncaught. -/
theorem client_error_mapping (c : Client) (b : String) (e : MinioErr) :
    (c.makeBucketResp b = .error e →
      (bucket_create c b).outcome =
        (if e.kind = .bucketAlreadyOwnedByYou then
          .commandError ("you have already created " ++ b) else .uncaught e)) ∧
    (c.removeBucketResp b = .error e →
      (bucket_delete c b).outcome =
        (if e.kind = .noSuchBucket then .commandError ("bucket " ++ b ++ " does not exist")
         else if e.kind = .bucketNotEmpty then .commandError ("bucket " ++ b ++ " is not empty")
         else .uncaught e)) ∧
    (∀ pfx : String, ∀ ld lf rec summ : Bool, c.listObjectsResp b pfx rec = .error e →
      (bucket_list c b pfx ld lf rec summ).outcome =
        (if e.kind = .noSuchBucket then .commandError ("bucket " ++ b ++ " does not exist")
         else .uncaught e)) ∧
    (c.getBucketPolicyResp b = .error e →
      (policy_get c b).outcome =
        (if e.kind = .noSuchBucket ∨ e.kind = .noSuchBucketPolicy then
          .commandError e.message else .uncaught e)) ∧
    (∀ p : Policy, c.setBucketPolicyResp b (p.bucket b) = .error e →
      (policy_set c b p).outcome =
        (if e.kind = .noSuchBucket then .commandError e.message else .uncaught e)) := by
  refine ⟨?_, ?_, ?_, ?_, ?_⟩
  · intro h
    by_cases hk : e.kind = MinioErrKind.bucketAlreadyOwnedByYou <;> simp [bucket_create, h, hk]
  · intro h
    by_cases h1 : e.kind = MinioErrKind.noSuchBucket
    · simp [bucket_delete, h, h1]
    · by_cases h2 : e.kind = MinioErrKind.bucketNotEmpty <;> simp [bucket_delete, h, h1, h2]
  · intro pfx ld lf rec summ h
    by_cases h1 : e.kind = MinioErrKind.noSuchBucket <;> simp [bucket_list, h, h1]
  · intro h
    by_cases h1 : e.kind = MinioErrKind.noSuchBucket
    · simp [policy_get, h, h1]
    · by_cases h2 : e.kind = MinioErrKind.noSuchBucketPolicy <;> simp [policy_get, h, h1, h2]
  · intro p h
    by_cases h1 : e.kind = MinioErrKind.noSuchBucket <;> simp [policy_set, h, h1]

/-- Witness for C1: each of the four conditions at a concrete client
yields its `CommandError`, and an unrelated exception during `mb`
propagates uncaught. -/
theorem client_error_mapping_witness :
    (bucket_create { okClient with makeBucketResp := fun _ => .error ⟨.bucketAlreadyOwnedByYou, "owned"⟩ } "b").outcome
      = .commandError "you have already created b" ∧
    (bucket_delete { okClient with removeBucketResp := fun _ => .error ⟨.noSuchBucket, "nsb"⟩ } "b").outcome
      = .commandError "bucket b does not exist" ∧
    (bucket_delete { okClient with removeBucketResp := fun _ => .error ⟨.bucketNotEmpty, "bne"⟩ } "b").outcome
      = .commandError "bucket b is not empty" ∧
    (bucket_list { okClient with listObjectsResp := fun _ _ _ => .error ⟨.noSuchBucket, "nsb"⟩ } "b" "" true true false true).outcome
      = .commandError "bucket b does not exist" ∧
    (policy_get { okClient with getBucketPolicyResp := fun _ => .error ⟨.noSuchBucketPolicy, "no policy for b"⟩ } "b").outcome
      = .commandError "no policy for b" ∧
    (policy_set { okClient with setBucketPolicyResp := fun _ _ => .error ⟨.noSuchBucket, "nsb"⟩ } "b" ⟨"get"⟩).outcome
      = .commandError "nsb" ∧
    (bucket_create { okClient with makeBucketResp := fun _ => .error ⟨.other, "connection reset"⟩ } "b").outcome
      = .uncaught ⟨.other, "connection reset"⟩ := by
  refine ⟨?_, ?_, ?_, ?_, ?_, ?_, ?_⟩
  · have h := (client_error_mapping
      { okClient with makeBucketResp := fun _ => .error ⟨.bucketAlreadyOwnedByYou, "owned"⟩ }
      "b" ⟨.bucketAlreadyOwnedByYou, "owned"⟩).1 rfl
    simpa using h
  · have h := (client_error_mapping
      { okClient with removeBucketResp := fun _ => .error ⟨.noSuchBucket, "nsb"⟩ }
      "b" ⟨.noSuchBucket, "nsb"⟩).2.1 rfl
    simpa using h
  · have h := (client_error_mapping
      { okClient with removeBucketResp := fun _ => .error ⟨.bucketNotEmpty, "bne"⟩ }
      "b" ⟨.bucketNotEmpty, "bne"⟩).2.1 rfl
    simpa using h
  · have h := (client_error_mapping
      { okClient with listObjectsResp := fun _ _ _ => .error ⟨.noSuchBucket, "nsb"⟩ }
      "b" ⟨.noSuchBucket, "nsb"⟩).2.2.1 "" true true false true rfl
    simpa using h
  · have h := (client_error_mapping
      { okClient with getBucketPolicyResp := fun _ => .error ⟨.noSuchBucketPolicy, "no policy for b"⟩ }
      "b" ⟨.noSuchBucketPolicy, "no policy for b"⟩).2.2.2.1 rfl
    simpa using h
  · have h := (client_error_mapping
      { okClient with setBucketPolicyResp := fun _ _ => .error ⟨.noSuchBucket, "nsb"⟩ }
      "b" ⟨.noSuchBucket, "nsb"⟩).2.2.2.2 ⟨"get"⟩ rfl
    simpa using h
  · have h := (client_error_mapping
      { okClient with makeBucketResp := fun _ => .error ⟨.other, "connection reset"⟩ }
      "b" ⟨.other, "connection reset"⟩).1 rfl
    simpa using h

/-- C2: `media` and `static` resolve to the two built-in storage class
paths and any other `--class` value is imported under its own name; a
failed import or a resolved type that is not a `MinioStorage` subclass
aborts the invocation with a `CommandError` before any client call. -/
theorem backend_resolution
    (members : List String) (env : ImportEnv) (opts : Options)
    (hval : validOptions members opts = true) :
    resolveClassName "media" = "minio_storage.storage.MinioMediaStorage" ∧
    resolveClassName "static" = "minio_storage.storage.MinioStaticStorage" ∧
    (∀ cls, cls ≠ "media" → cls ≠ "static" → resolveClassName cls = cls) ∧
    (env (resolveClassName opts.className) = none →
      invoke members env opts =
        { outcome := .commandError
            ("could not find storage class: " ++ resolveClassName opts.className),
          calls := [], out := [], err := [] }) ∧
    (∀ sc : StorageClass, env (resolveClassName opts.className) = some sc →
      sc.subclassOfMinioStorage = false →
      invoke members env opts =
        { outcome := .commandError
            (resolveClassName opts.className ++ " is not an sub class of MinioStorage."),
          calls := [], out := [], err := [] }) := by
  refine ⟨rfl, by simp [resolveClassName], ?_, ?_, ?_⟩
  · intro cls h1 h2
    simp [resolveClassName, h1, h2]
  · intro h
    rw [invoke_eq_handleRun _ _ _ hval]
    simp [handleRun, storageResolve, h]
  · intro sc hsc hsub
    rw [invoke_eq_handleRun _ _ _ hval]
    simp [handleRun, storageResolve, hsc, hsub]

/-- An import environment with no importable classes. -/
def emptyEnv : ImportEnv := fun _ => none

/-- An import environment exposing one class that is not a
`MinioStorage` subclass. -/
def notSubclassEnv : ImportEnv := fun n =>
  if n = "myapp.storage.Other" then
    some { subclassOfMinioStorage := false, construct := ⟨okClient, "x"⟩ }
  else none

/-- Witness for C2: a missing class and a non-subclass each fail with
their configuration `CommandError` and no client call; a non-alias name
resolves to itself. -/
theorem backend_resolution_witness :
    invoke [] emptyEnv baseOpts =
      { outcome := .commandError
          "could not find storage class: minio_storage.storage.MinioMediaStorage",
        calls := [], out := [], err := [] } ∧
    invoke [] notSubclassEnv { baseOpts with className := "myapp.storage.Other" } =
      { outcome := .commandError "myapp.storage.Other is not an sub class of MinioStorage.",
        calls := [], out := [], err := [] } ∧
    resolveClassName "myapp.storage.Other" = "myapp.storage.Other" := by
  refine ⟨?_, ?_, ?_⟩
  · have h := (backend_resolution [] emptyEnv baseOpts rfl).2.2.2.1 rfl
    simpa using h
  · have h := (backend_resolution [] notSubclassEnv
      { baseOpts with className := "myapp.storage.Other" } rfl).2.2.2.2
      { subclassOfMinioStorage := false, construct := ⟨okClient, "x"⟩ } rfl rfl
    simpa using h
  · exact (backend_resolution [] emptyEnv baseOpts rfl).2.2.1 "myapp.storage.Other"
      (by decide) (by decide)

/-- C3: `policy --set v` with `v` outside the policy enum is rejected by
argparse before any client call (empty call trace); with `v` in the
enum, the policy document for `v` is applied to the bucket via the
client's set-policy call. -/
theorem policy_set_enum_validation
    (members : List String) (env : ImportEnv) (opts : Options) (v : String)
    (hcmd : opts.command = some "policy") (hset : opts.set = some v) :
    (v ∉ members →
      invoke members env opts =
        { outcome := .usageError "argparse: invalid arguments",
          calls := [], out := [], err := [] }) ∧
    (v ∈ members → ∀ storage : Storage, storageResolve env opts.className = .ok storage →
      (invoke members env opts).calls =
        [.setBucketPolicy (effectiveBucket opts.bucket storage.bucket_name)
          (Policy.bucket ⟨v⟩ (effectiveBucket opts.bucket storage.bucket_name))]) := by
  constructor
  · intro hv
    have hfalse : validOptions members opts = false := by
      simp [validOptions, hcmd, hset, hv]
    simp [invoke, hfalse]
  · intro hv storage hres
    have hval : validOptions members opts = true := by
      simp [validOptions, hcmd, hset, hv]
    rw [invoke_eq_handleRun _ _ _ hval,
      handleRun_policy_some members env opts storage v hres hcmd hset hv]
    exact policy_set_calls _ _ _

/-- Witness for C3 with the enum values modelled as
`["none", "get", "read", "write", "read-write"]`: an invalid value is
rejected with no client call; a valid one reaches the client's
set-policy call with the document for the bucket. -/
theorem policy_set_enum_validation_witness :
    invoke ["none", "get", "read", "write", "read-write"] (envFor ⟨okClient, "mybucket"⟩)
        { baseOpts with command := some "policy", set := some "bogus" } =
      { outcome := .usageError "argparse: invalid arguments",
        calls := [], out := [], err := [] } ∧
    (invoke ["none", "get", "read", "write", "read-write"] (envFor ⟨okClient, "mybucket"⟩)
        { baseOpts with command := some "policy", set := some "get" }).calls =
      [.setBucketPolicy "mybucket" "get applied to mybucket"] := by
  constructor
  · exact (policy_set_enum_validation ["none", "get", "read", "write", "read-write"]
      (envFor ⟨okClient, "mybucket"⟩)
      { baseOpts with command := some "policy", set := some "bogus" } "bogus"
      rfl rfl).1 (by decide)
  · have h := (policy_set_enum_validation ["none", "get", "read", "write", "read-write"]
      (envFor ⟨okClient, "mybucket"⟩)
      { baseOpts with command := some "policy", set := some "get" } "get"
      rfl rfl).2 (by decide) ⟨okClient, "mybucket"⟩ rfl
    simpa using h

/-- C9: `policy` without `--set` returns the policy document fetched
from the client pretty-printed: parsed as JSON and re-serialized by
`json_dumps` (two-space indentation, non-ASCII characters preserved). -/
theorem policy_get_pretty
    (members : List String) (env : ImportEnv) (opts : Options) (storage : Storage)
    (b s : String) (d : Json)
    (hres : storageResolve env opts.className = .ok storage)
    (hcmd : opts.command = some "policy") (hset : opts.set = none)
    (hb : b = effectiveBucket opts.bucket storage.bucket_name)
    (hresp : storage.client.getBucketPolicyResp b = .ok s)
    (hparse : json_loads s = some d) :
    invoke members env opts =
      { outcome := .ok (some (json_dumps d)), calls := [.getBucketPolicy b],
        out := [], err := [] } := by
  have hval : validOptions members opts = true := by simp [validOptions, hcmd, hset]
  rw [invoke_eq_handleRun _ _ _ hval,
    handleRun_policy_none members env opts storage hres hcmd hset, ← hb]
  simp [policy_get, hresp, hparse]

/-- Witness for C9: a compact document with non-ASCII keys and values is
returned re-indented with two spaces per level and the non-ASCII
characters intact. -/
theorem policy_get_pretty_witness :
    invoke []
        (envFor ⟨{ okClient with
          getBucketPolicyResp := fun _ => .ok "\x7b\"Ké\": [1, true], \"b\": \"ñ\"\x7d" },
          "mybucket"⟩)
        { baseOpts with command := some "policy" } =
      { outcome := .ok (some "\x7b\n  \"Ké\": [\n    1,\n    true\n  ],\n  \"b\": \"ñ\"\n\x7d"),
        calls := [.getBucketPolicy "mybucket"], out := [], err := [] } := by
  have h := policy_get_pretty []
    (envFor ⟨{ okClient with
      getBucketPolicyResp := fun _ => .ok "\x7b\"Ké\": [1, true], \"b\": \"ñ\"\x7d" },
      "mybucket"⟩)
    { baseOpts with command := some "policy" }
    ⟨{ okClient with
      getBucketPolicyResp := fun _ => .ok "\x7b\"Ké\": [1, true], \"b\": \"ñ\"\x7d" },
      "mybucket"⟩
    "mybucket" "\x7b\"Ké\": [1, true], \"b\": \"ñ\"\x7d"
    (.jobj [("Ké", .jarr [.jnum 1, .jbool true]), ("b", .jstr "ñ")])
    rfl rfl rfl rfl rfl rfl
  rw [h]
  simp only [json_dumps, dumpsAt, dumpsItems, dumpsFields]
  rfl

/-- C10: the bucket passed to the selected operation is `--bucket` when
that value is a non-empty string and otherwise the storage instance's
own `bucket_name`; in particular `--bucket ''` behaves exactly like
omitting the flag.  Every client call of an invocation that carries a
bucket argument carries exactly this effective bucket name. -/
theorem bucket_flag_selection
    (members : List String) (env : ImportEnv) (opts : Options) :
    invoke members env { opts with bucket := some "" } =
      invoke members env { opts with bucket := none } ∧
    (∀ storage : Storage, storageResolve env opts.className = .ok storage →
      ∀ call ∈ (handleRun members env opts).calls,
        call.bucketArg = some (effectiveBucket opts.bucket storage.bucket_name) ∨
        call = .listBuckets) := by
  constructor
  · have hh : handleRun members env { opts with bucket := some "" } =
        handleRun members env { opts with bucket := none } := by
      cases hres : storageResolve env opts.className with
      | error msg => simp [handleRun, hres]
      | ok storage => simp [handleRun, hres, effectiveBucket]
    have h1 : validOptions members { opts with bucket := some "" } = validOptions members opts := rfl
    have h2 : validOptions members { opts with bucket := none } = validOptions members opts := rfl
    unfold invoke
    rw [h1, h2, hh]
  · intro storage hres call hcall
    rcases hcmd : opts.command with _ | c
    · rw [handleRun_default members env opts storage hres hcmd, bucket_exists_calls] at hcall
      simp only [List.mem_singleton] at hcall
      subst hcall; left; rfl
    · by_cases h1 : c = "mb"
      · subst h1
        rw [handleRun_mb members env opts storage hres hcmd, bucket_create_calls] at hcall
        simp only [List.mem_singleton] at hcall
        subst hcall; left; rfl
      · by_cases h2 : c = "rb"
        · subst h2
          rw [handleRun_rb members env opts storage hres hcmd, bucket_delete_calls] at hcall
          simp only [List.mem_singleton] at hcall
          subst hcall; left; rfl
        · by_cases h3 : c = "ls"
          · subst h3
            rcases hbk : opts.buckets
            · rw [handleRun_ls_objects members env opts storage hres hcmd hbk,
                bucket_list_calls] at hcall
              simp only [List.mem_singleton] at hcall
              subst hcall; left; rfl
            · rw [handleRun_ls_buckets members env opts storage hres hcmd hbk,
                list_buckets_calls] at hcall
              simp only [List.mem_singleton] at hcall
              subst hcall; right; rfl
          · by_cases h4 : c = "policy"
            · subst h4
              rcases hset : opts.set with _ | v
              · rw [handleRun_policy_none members env opts storage hres hcmd hset,
                  policy_get_calls] at hcall
                simp only [List.mem_singleton] at hcall
                subst hcall; left; rfl
              · by_cases hv : v ∈ members
                · rw [handleRun_policy_some members env opts storage v hres hcmd hset hv,
                    policy_set_calls] at hcall
                  simp only [List.mem_singleton] at hcall
                  subst hcall; left; rfl
                · have hrun : handleRun members env opts =
                      { outcome := .pyError ("ValueError: " ++ v ++ " is not a valid Policy"),
                        calls := [], out := [], err := [] } := by
                    simp [handleRun, hres, hcmd, hset, hv, Option.getD]
                  rw [hrun] at hcall
                  simp at hcall
            · have hrun : handleRun members env opts =
                  bucket_exists storage.client (effectiveBucket opts.bucket storage.bucket_name) := by
                simp [handleRun, hres, hcmd, h1, h2, h3, h4, Option.getD]
              rw [hrun, bucket_exists_calls] at hcall
              simp only [List.mem_singleton] at hcall
              subst hcall; left; rfl

/-- Witness for C10: at a concrete backend, `--bucket ''` and no
`--bucket` give identical runs, and the one client call of an `mb`
invocation with `--bucket other` carries the bucket `other`. -/
theorem bucket_flag_selection_witness :
    invoke [] (envFor ⟨okClient, "mybucket"⟩) { baseOpts with bucket := some "" } =
      invoke [] (envFor ⟨okClient, "mybucket"⟩) { baseOpts with bucket := none } ∧
    ((ClientCall.makeBucket "other").bucketArg = some "other" ∨
      ClientCall.makeBucket "other" = ClientCall.listBuckets) := by
  constructor
  · exact (bucket_flag_selection [] (envFor ⟨okClient, "mybucket"⟩) baseOpts).1
  · exact (bucket_flag_selection [] (envFor ⟨okClient, "mybucket"⟩)
      { baseOpts with bucket := some "other", command := some "mb" }).2
      ⟨okClient, "mybucket"⟩ rfl (.makeBucket "other") (by decide)
